import Mathlib

/-!
Verification of the controller layer of zerotier-qt (src/main.py), a Qt
front-end for the ZeroTier mesh-VPN daemon.  External effects (subprocess
invocation, the filesystem, dialog boxes) are made explicit parameters or
explicit result components; behaviour that raises an unhandled Python
exception is modelled with Option/Except.
-/

namespace ZerotierQt

/-! ## Whitespace splitting, as Python str.split() with no arguments -/

/-- Helper for pySplit: walks the character list, accumulating the current
token in reverse; a whitespace run ends the current token (if non-empty). -/
def splitWsAux : List Char → List Char → List String
  | [], acc => if acc.isEmpty then [] else [String.mk acc.reverse]
  | c :: cs, acc =>
    if c.isWhitespace then
      if acc.isEmpty then splitWsAux cs []
      else String.mk acc.reverse :: splitWsAux cs []
    else splitWsAux cs (c :: acc)

/-- Python str.split() with no arguments: split on runs of whitespace,
discarding leading and trailing whitespace. -/
def pySplit (s : String) : List String :=
  splitWsAux s.toList []

/-- Lower-case one character, as Python str.lower() on ASCII input. -/
def pyLowerChar (c : Char) : Char :=
  if 'A' ≤ c ∧ c ≤ 'Z' then Char.ofNat (c.toNat + 32) else c

/-- Python str.lower() on ASCII strings. -/
def pyLower (s : String) : String :=
  String.mk (s.toList.map pyLowerChar)

/-- Python str.strip() with no arguments: drop leading and trailing
whitespace. -/
def pyStrip (s : String) : String :=
  String.mk
    (((s.toList.dropWhile Char.isWhitespace).reverse.dropWhile
        Char.isWhitespace).reverse)

/-! ## get_status (src/main.py lines 79-82) and its consumers

get_status runs the zerotier-cli status command and splits the captured
stdout on whitespace; the subprocess output is the parameter here. -/

/-- get_status: the status text is split on whitespace (line 81). -/
def get_status (out : String) : List String :=
  pySplit out

/-- Consumer access status[2] (node id), from refresh_networks line 643.
The source indexes the list directly with no bounds check; an out-of-range
index raises IndexError, modelled by none. -/
def status_node_id (status : List String) : Option String :=
  status.get? 2

/-- Consumer access status[3] (version), from about_window line 273. -/
def status_version (status : List String) : Option String :=
  status.get? 3

/-- Consumer access status[4] (online state), from refresh_networks line 643. -/
def status_online (status : List String) : Option String :=
  status.get? 4

/-! ## Interface state (get_interface_state, src/main.py lines 150-156)

The source iterates over the JSON output of the ip address command and,
on the first entry whose ifname equals the requested interface, binds
state and breaks.  If no entry matches, the local variable state is never
assigned and the final return raises UnboundLocalError; that crash is
modelled by none. -/

/-- One entry of the parsed ip --json address output. -/
structure IfaceInfo where
  ifname : String
  operstate : String
deriving DecidableEq

/-- get_interface_state: first matching entry wins; no match is the
UnboundLocalError crash, modelled as none. -/
def get_interface_state : List IfaceInfo → String → Option String
  | [], _ => none
  | info :: rest, iface =>
    if info.ifname = iface then some info.operstate
    else get_interface_state rest iface

/-! ## Network data (zerotier-cli -j listnetworks output) -/

/-- The fields of a listnetworks entry that the verified code paths read. -/
structure NetworkData where
  id : String
  nwid : String
  name : String
  status : String
  portDeviceName : String
deriving DecidableEq

/-! ## refresh_networks (src/main.py lines 641-673), network-row part

The loop over networkData calls get_interface_state for every network with
no try/except; an UnboundLocalError from a missing interface propagates and
aborts the whole refresh (the table was already cleared, so nothing is
displayed).  Rows carry the isDown flag computed on line 655. -/

/-- One row of the networks table as built by refresh_networks. -/
structure NetworkRow where
  id : String
  name : String
  status : String
  device : String
  isDown : Bool
deriving DecidableEq

/-- Display name: Python falsy test on the name string (line 659), an empty
name is replaced by the sentinel. -/
def display_name (name : String) : String :=
  if name = "" then "Unknown Name" else name

/-- Build the row for one network: read its interface state (crash if the
device is absent) and compute the isDown flag (lines 652-664). -/
def network_row (table : List IfaceInfo) (n : NetworkData) : Option NetworkRow :=
  match get_interface_state table n.portDeviceName with
  | none => none
  | some st =>
      some ⟨n.id, display_name n.name, n.status, n.portDeviceName,
            decide (pyLower st = "down")⟩

/-- The row-building loop of refresh_networks: any per-network crash aborts
the whole refresh. -/
def refresh_rows (table : List IfaceInfo) : List NetworkData → Option (List NetworkRow)
  | [] => some []
  | n :: rest =>
    match network_row table n with
    | none => none
    | some row =>
      match refresh_rows table rest with
      | none => none
      | some rows => some (row :: rows)

/-- refresh_networks: reads status[2] and status[4] for the status label
(line 643), then builds the rows; a failure anywhere aborts the refresh. -/
def refresh_networks (statusOut : String) (table : List IfaceInfo)
    (nets : List NetworkData) : Option (String × String × List NetworkRow) :=
  match status_node_id (get_status statusOut), status_online (get_status statusOut) with
  | some nid, some onl =>
    (match refresh_rows table nets with
     | none => none
     | some rows => some (nid, onl, rows))
  | _, _ => none

/-! ## toggle_interface (src/main.py lines 179-197)

Reads the current operational state, then runs the pkexec command bringing
the interface up when the lower-cased state equals "down" and down
otherwise.  The run parameter gives the exit code of the escalated command
for the requested direction (true = up); check_call succeeds exactly on
exit code 0, and every CalledProcessError is caught and collapsed into the
return value False regardless of the exit code. -/

/-- toggle_interface: none models the UnboundLocalError crash of the state
read; otherwise some (requestedUp, returnedValue). -/
def toggle_interface (table : List IfaceInfo) (run : Bool → Nat)
    (iface : String) : Option (Bool × Bool) :=
  match get_interface_state table iface with
  | none => none
  | some state =>
    if pyLower state = "down" then some (true, decide (run true = 0))
    else some (false, decide (run false = 0))

/-! ## setup_auth_token copy step (src/main.py lines 247-265)

After the user accepts, the pkexec copy command runs; on CalledProcessError
with returncode 127 the process exits immediately (exit code 1, no dialog),
on any other CalledProcessError a critical dialog shows the captured output
and then the process exits (exit code 1). -/

/-- Outcome of the privileged authtoken copy in setup_auth_token. -/
inductive SetupCopyOutcome where
  | copied
  | exitMissingHelper
  | exitAfterDialog (output : String)
deriving DecidableEq

/-- setup_copy: the copy command result is none on success or
some (returncode, output) on CalledProcessError. -/
def setup_copy (res : Option (Nat × String)) : SetupCopyOutcome :=
  match res with
  | none => SetupCopyOutcome.copied
  | some (rc, out) =>
      if rc = 127 then SetupCopyOutcome.exitMissingHelper
      else SetupCopyOutcome.exitAfterDialog out

/-! ## leave_network (src/main.py lines 158-177)

A confirmation dialog gates the leave command: only on Yes is check_call
invoked, returning True on success and False (after a warning dialog) on
CalledProcessError; on No the function returns False without running
anything. -/

/-- leave_network: first component is the returned value, second records
whether the external leave command was invoked. -/
def leave_network (confirm : Bool) (leaveOk : Bool) : Bool × Bool :=
  if confirm then
    if leaveOk then (true, true) else (false, true)
  else (false, false)

/-! ## is_on_network and join_network (src/main.py lines 110-135) -/

/-- The loop body of is_on_network: breaks as soon as the accumulator is
true, else stores whether the current entry's nwid matches. -/
def is_on_network_loop (network_id : String) :
    List NetworkData → Bool → Bool
  | [], currently_joined => currently_joined
  | network :: rest, currently_joined =>
    if currently_joined then currently_joined
    else is_on_network_loop network_id rest (decide (network.nwid = network_id))

/-- is_on_network: scans listnetworks output for a matching nwid. -/
def is_on_network (networks : List NetworkData) (network_id : String) : Bool :=
  is_on_network_loop network_id networks false

/-- Outcome of join_network as surfaced to the user: the already-a-member
dialog, a successful join, or the invalid-network-id warning. -/
inductive JoinResult where
  | alreadyMember
  | joined
  | invalidId
deriving DecidableEq

/-- join_network: membership is checked first; only a non-member triggers
the external join command (joinOk = whether check_call succeeds).  The
second component records whether the join command was invoked. -/
def join_network (networks : List NetworkData) (joinOk : Bool)
    (network_id : String) : JoinResult × Bool :=
  if is_on_network networks network_id then (JoinResult.alreadyMember, false)
  else if joinOk then (JoinResult.joined, true)
  else (JoinResult.invalidId, true)

/-! ## change_config (src/main.py lines 94-108)

The first statement is value = int(value): Python int() maps booleans to
0/1, keeps integers, and parses strings (optional surrounding whitespace,
optional sign, digits); anything else raises ValueError before the
external command is built.  The daemon parameter maps (key, coerced int)
to none on exit 0 or some capturedOutput on CalledProcessError. -/

/-- The value kinds that reach change_config from the UI layer. -/
inductive PyVal where
  | vBool (b : Bool)
  | vInt (n : Int)
  | vStr (s : String)
deriving DecidableEq

/-- Decimal value of a digit list. -/
def digitsToNat (cs : List Char) : Nat :=
  cs.foldl (fun a c => a * 10 + (c.toNat - 48)) 0

/-- Python int() applied to a string: strip whitespace, optional sign,
then a non-empty run of digits; anything else raises ValueError (none). -/
def pyIntOfString (s : String) : Option Int :=
  match (pyStrip s).toList with
  | [] => none
  | c :: cs =>
    if c = '-' then
      if !cs.isEmpty && cs.all Char.isDigit then some (-(digitsToNat cs : Int))
      else none
    else if c = '+' then
      if !cs.isEmpty && cs.all Char.isDigit then some ((digitsToNat cs : Int))
      else none
    else if (c :: cs).all Char.isDigit then some ((digitsToNat (c :: cs) : Int))
    else none

/-- Python int() on the values change_config can receive. -/
def pyInt : PyVal → Option Int
  | PyVal.vBool b => some (if b then 1 else 0)
  | PyVal.vInt n => some n
  | PyVal.vStr s => pyIntOfString s

/-- Outcome of change_config: the uncaught ValueError from int(), a
successful set, or the warning dialog carrying the daemon's output. -/
inductive ConfigResult where
  | invalidConfigValue
  | ok
  | configRejected (reason : String)
deriving DecidableEq

/-- change_config: coerce first, then run the set command; the second
component is the integer sent to the daemon (none = no external call). -/
def change_config (daemon : String → Int → Option String) (config : String)
    (value : PyVal) : ConfigResult × Option Int :=
  match pyInt value with
  | none => (ConfigResult.invalidConfigValue, none)
  | some n =>
    match daemon config n with
    | none => (ConfigResult.ok, some n)
    | some reason => (ConfigResult.configRejected reason, some n)

/-! ## get_token (src/main.py lines 65-77)

The credential resolver keeps the token in the module-global authtoken.
Under uid 0 it reads the system secret file.  Otherwise it tests
os.path.isfile(".zeroTierOneAuthToken") — a path relative to the process
working directory — and when that test succeeds it opens the dotfile under
HOME_DIR; when it fails it opens AUTH_FILE in the per-user config
directory.  A failed open raises FileNotFoundError, modelled as the error
result. -/

/-- The filesystem and process identity visible to get_token. -/
structure FsEnv where
  uid : Nat
  cwd : String
  home : String
  configDir : String
  fs : List (String × String)
deriving DecidableEq

/-- Contents of a file, or none when no file exists at the path. -/
def read_file (fs : List (String × String)) (path : String) : Option String :=
  match fs.find? (fun e => e.1 = path) with
  | some e => some e.2
  | none => none

/-- os.path.isfile on the modelled filesystem. -/
def isfile (fs : List (String × String)) (path : String) : Bool :=
  (read_file fs path).isSome

/-- The root-only system secret file path (line 70). -/
def system_auth_path : String := "/var/lib/zerotier-one/authtoken.secret"

/-- The user dotfile name (lines 73-74). -/
def dotfile_name : String := ".zeroTierOneAuthToken"

/-- AUTH_FILE: the per-user config-directory copy (line 61). -/
def auth_file (env : FsEnv) : String := env.configDir ++ "/authtoken.secret"

/-- Result of one credential read: the token string, or the unhandled
FileNotFoundError from opening a missing file. -/
inductive TokenResult where
  | ok (t : String)
  | fileNotFound
deriving DecidableEq

/-- Result of one get_token call: the token or the unhandled open failure,
the new value of the authtoken global, and every filesystem path touched. -/
structure TokenOutcome where
  result : TokenResult
  cache : Option String
  probed : List String
deriving DecidableEq

/-- Open a credential file, strip it, and store it in the global. -/
def read_token (fs : List (String × String)) (path : String)
    (probedBefore : List String) : TokenOutcome :=
  match read_file fs path with
  | some s =>
      { result := TokenResult.ok (pyStrip s), cache := some (pyStrip s),
        probed := probedBefore ++ [path] }
  | none =>
      { result := TokenResult.fileNotFound, cache := none,
        probed := probedBefore ++ [path] }

/-- get_token: return the cached global when set; else under uid 0 read the
system path; else probe the CWD-relative dotfile name and on success open
the HOME dotfile, otherwise open AUTH_FILE. -/
def get_token (env : FsEnv) (authtoken : Option String) : TokenOutcome :=
  match authtoken with
  | some t => { result := TokenResult.ok t, cache := some t, probed := [] }
  | none =>
    if env.uid = 0 then
      read_token env.fs system_auth_path []
    else
      if isfile env.fs (env.cwd ++ "/" ++ dotfile_name) then
        read_token env.fs (env.home ++ "/" ++ dotfile_name)
          [env.cwd ++ "/" ++ dotfile_name]
      else
        read_token env.fs (auth_file env)
          [env.cwd ++ "/" ++ dotfile_name]

/-! ## Concrete inputs used by the witnesses and counterexamples -/

/-- A non-root environment whose only credential file is the dotfile in the
home directory; the process working directory is elsewhere. -/
def c1_env : FsEnv :=
  { uid := 1000, cwd := "/tmp", home := "/home/user",
    configDir := "/home/user/.config/zerotier-qt",
    fs := [("/home/user/.zeroTierOneAuthToken", "sekretdot")] }

/-- A network whose interface is present in the interface table. -/
def c2_net1 : NetworkData := ⟨"net1", "net1", "alpha", "OK", "ztabc"⟩

/-- A network whose interface is absent from the interface table. -/
def c2_net2 : NetworkData := ⟨"net2", "net2", "beta", "OK", "ztmissing"⟩

/-- An interface table holding only the first network's device. -/
def c2_table : List IfaceInfo := [⟨"ztabc", "UP"⟩]

/-- Two networks of which exactly one has a readable interface state. -/
def c2_nets : List NetworkData := [c2_net1, c2_net2]

/-- A daemon accepting every set command. -/
def c3_daemon_ok : String → Int → Option String := fun _ _ => none

/-- A daemon rejecting every set command with a diagnostic. -/
def c3_daemon_fail : String → Int → Option String :=
  fun _ _ => some "invalid setting"

/-- A one-network listnetworks output. -/
def c4_networks : List NetworkData :=
  [⟨"a1b2c3d4e5f60708", "a1b2c3d4e5f60708", "mynet", "OK", "zt0"⟩]

/-- An interface table whose single interface is up. -/
def c6_table : List IfaceInfo := [⟨"zt0", "UP"⟩]

/-- A root environment with the system secret file present. -/
def c7_env : FsEnv :=
  { uid := 0, cwd := "/root", home := "/root",
    configDir := "/root/.config/zerotier-qt",
    fs := [("/var/lib/zerotier-one/authtoken.secret", "roottok")] }

/-- An interface table whose single interface is down. -/
def c9_table : List IfaceInfo := [⟨"zt0", "DOWN"⟩]

end ZerotierQt

namespace ZerotierQt

/-! ## Supporting lemmas -/

/-- An indexed access on a list succeeds exactly when the index is in bounds. -/
theorem get?_isSome_iff (l : List String) (n : Nat) :
    (l.get? n).isSome ↔ n < l.length := by
  rw [List.get?_eq_getElem?]
  constructor
  · intro h
    obtain ⟨a, ha⟩ := Option.isSome_iff_exists.mp h
    by_contra hn
    rw [List.getElem?_eq_none (Nat.le_of_not_lt hn)] at ha
    exact Option.noConfusion ha
  · intro h
    rw [List.getElem?_eq_getElem h]
    rfl

/-- Once the membership loop accumulator is true it stays true. -/
theorem is_on_network_loop_true (id : String) (l : List NetworkData) :
    is_on_network_loop id l true = true := by
  cases l <;> simp [is_on_network_loop]

/-- The membership scan finds exactly the ids present as some entry's nwid. -/
theorem is_on_network_iff (networks : List NetworkData) (id : String) :
    is_on_network networks id = true ↔ ∃ n ∈ networks, n.nwid = id := by
  unfold is_on_network
  induction networks with
  | nil => simp [is_on_network_loop]
  | cons n rest ih =>
    have hstep : is_on_network_loop id (n :: rest) false =
        is_on_network_loop id rest (decide (n.nwid = id)) := by
      simp [is_on_network_loop]
    rw [hstep]
    by_cases hn : n.nwid = id
    · rw [decide_eq_true hn, is_on_network_loop_true]
      exact iff_of_true rfl ⟨n, List.mem_cons_self n rest, hn⟩
    · rw [decide_eq_false hn, ih]
      constructor
      · rintro ⟨m, hm, hmid⟩
        exact ⟨m, List.mem_cons_of_mem n hm, hmid⟩
      · rintro ⟨m, hm, hmid⟩
        rcases List.mem_cons.mp hm with h | h
        · exact absurd (h ▸ hmid) hn
        · exact ⟨m, h, hmid⟩

/-- A successful read_token stores exactly the returned token in the
module-global cache. -/
theorem read_token_cache_of_ok (fs : List (String × String)) (path : String)
    (pb : List String) (t : String)
    (h : (read_token fs path pb).result = TokenResult.ok t) :
    (read_token fs path pb).cache = some t := by
  revert h
  unfold read_token
  cases read_file fs path with
  | none =>
    intro h
    exact TokenResult.noConfusion h
  | some s =>
    intro h
    injection h with h
    exact congrArg some h

/-- A successful first resolution stores exactly the returned token in the
module-global cache. -/
theorem get_token_cache_of_ok (env : FsEnv) (t : String)
    (h : (get_token env none).result = TokenResult.ok t) :
    (get_token env none).cache = some t := by
  simp only [get_token] at h ⊢
  split_ifs at h ⊢ <;> exact read_token_cache_of_ok _ _ _ _ h

end ZerotierQt

namespace ZerotierQt

/-! ## Claims -/

/-- Claim C1: the claim states that with the user-local dotfile present in
the home directory the token is resolved from that dotfile.  The code
instead probes the dotfile name relative to the process working directory
and only reads the home dotfile when that unrelated probe succeeds: in an
environment where the dotfile exists in the home directory (and nowhere
else), resolution falls through to the absent config-directory copy and
fails instead of returning the dotfile token. -/
theorem C1_dotfile_probe_bug :
    read_file c1_env.fs (c1_env.home ++ "/" ++ dotfile_name) = some "sekretdot" ∧
    isfile c1_env.fs (c1_env.cwd ++ "/" ++ dotfile_name) = false ∧
    (get_token c1_env none).result = TokenResult.fileNotFound := by
  refine ⟨by decide, by decide, by decide⟩

/-- Claim C2: the claim states that a failed interface read for one of N
networks marks it unknown and leaves the refresh intact.  The code has no
such handling: a single network whose device is absent from the interface
table makes get_interface_state crash, aborting the whole refresh, even
though the same networks refresh fine when the failing one is dropped. -/
theorem C2_refresh_aborts :
    refresh_rows c2_table [c2_net1] =
      some [⟨"net1", "alpha", "OK", "ztabc", false⟩] ∧
    get_interface_state c2_table c2_net2.portDeviceName = none ∧
    refresh_rows c2_table c2_nets = none ∧
    refresh_networks "200 info abcdef1234 1.10.1 ONLINE" c2_table c2_nets = none := by
  refine ⟨by decide, by decide, by decide, by decide⟩

/-- Claim C3: change_config coerces True to 1 and False to 0; a value that
is not integer-coercible fails with the uncaught int() error before any
external command is issued (whatever the daemon would answer), and an
integer-coercible value sends the coerced integer to the daemon, yielding
Ok on success or the daemon's rejection reason on failure. -/
theorem C3_change_config_spec (d dr : String → Int → Option String)
    (c r : String) (v w : PyVal) (n : Int)
    (hv : pyInt v = none) (hw : pyInt w = some n)
    (hd : d c n = none) (hr : dr c n = some r) :
    pyInt (PyVal.vBool true) = some 1 ∧
    pyInt (PyVal.vBool false) = some 0 ∧
    change_config d c v = (ConfigResult.invalidConfigValue, none) ∧
    change_config dr c v = (ConfigResult.invalidConfigValue, none) ∧
    change_config d c w = (ConfigResult.ok, some n) ∧
    change_config dr c w = (ConfigResult.configRejected r, some n) := by
  refine ⟨rfl, rfl, ?_, ?_, ?_, ?_⟩ <;>
    simp [change_config, hv, hw, hd, hr]

/-- Witness for C3: the free-form string is rejected before any call, the
integer 7 goes through against both daemons. -/
theorem C3_change_config_witness :
    (pyInt (PyVal.vStr "free-form") = none ∧
     pyInt (PyVal.vInt 7) = some 7 ∧
     c3_daemon_ok "allowDefault" 7 = none ∧
     c3_daemon_fail "allowDefault" 7 = some "invalid setting") ∧
    (pyInt (PyVal.vBool true) = some 1 ∧
     pyInt (PyVal.vBool false) = some 0 ∧
     change_config c3_daemon_ok "allowDefault" (PyVal.vStr "free-form") =
       (ConfigResult.invalidConfigValue, none) ∧
     change_config c3_daemon_fail "allowDefault" (PyVal.vStr "free-form") =
       (ConfigResult.invalidConfigValue, none) ∧
     change_config c3_daemon_ok "allowDefault" (PyVal.vInt 7) =
       (ConfigResult.ok, some 7) ∧
     change_config c3_daemon_fail "allowDefault" (PyVal.vInt 7) =
       (ConfigResult.configRejected "invalid setting", some 7)) :=
  ⟨⟨by decide, by decide, by decide, by decide⟩,
   C3_change_config_spec c3_daemon_ok c3_daemon_fail "allowDefault"
     "invalid setting" (PyVal.vStr "free-form") (PyVal.vInt 7) 7
     (by decide) (by decide) (by decide) (by decide)⟩

/-- Claim C4: join_network on an id that appears as the nwid of some entry
of the listnetworks output returns the already-a-member outcome without
invoking the join command; on an id not present it invokes the join
command, returning joined on success and the invalid-id outcome on
failure. -/
theorem C4_join_spec (networks : List NetworkData) (idIn idOut : String)
    (ok : Bool)
    (hin : ∃ n ∈ networks, n.nwid = idIn)
    (hout : ¬ ∃ n ∈ networks, n.nwid = idOut) :
    join_network networks ok idIn = (JoinResult.alreadyMember, false) ∧
    (join_network networks ok idOut).2 = true ∧
    join_network networks true idOut = (JoinResult.joined, true) ∧
    join_network networks false idOut = (JoinResult.invalidId, true) := by
  have h1 : is_on_network networks idIn = true :=
    (is_on_network_iff networks idIn).mpr hin
  have h2 : is_on_network networks idOut = false := by
    rw [← Bool.not_eq_true, is_on_network_iff]
    exact hout
  refine ⟨?_, ?_, ?_, ?_⟩ <;> cases ok <;> simp [join_network, h1, h2]

/-- Witness for C4 on a one-network membership list. -/
theorem C4_join_spec_witness :
    ((∃ n ∈ c4_networks, n.nwid = "a1b2c3d4e5f60708") ∧
     ¬ (∃ n ∈ c4_networks, n.nwid = "ffffffffffffffff")) ∧
    (join_network c4_networks true "a1b2c3d4e5f60708" =
       (JoinResult.alreadyMember, false) ∧
     (join_network c4_networks true "ffffffffffffffff").2 = true ∧
     join_network c4_networks true "ffffffffffffffff" = (JoinResult.joined, true) ∧
     join_network c4_networks false "ffffffffffffffff" =
       (JoinResult.invalidId, true)) :=
  ⟨⟨by decide, by decide⟩,
   C4_join_spec c4_networks "a1b2c3d4e5f60708" "ffffffffffffffff" true
     (by decide) (by decide)⟩

/-- Claim C5: parsing daemon status text by the fixed-offset rule takes the
whitespace-separated token at position 2 as the node id, position 3 as the
version and position 4 as the online state; on the input
"200 info abcdef1234 1.10.1 ONLINE" this yields nodeId "abcdef1234",
version "1.10.1" and onlineState "ONLINE". -/
theorem C5_status_fixed_offset :
    get_status "200 info abcdef1234 1.10.1 ONLINE" =
      ["200", "info", "abcdef1234", "1.10.1", "ONLINE"] ∧
    status_node_id (get_status "200 info abcdef1234 1.10.1 ONLINE") = some "abcdef1234" ∧
    status_version (get_status "200 info abcdef1234 1.10.1 ONLINE") = some "1.10.1" ∧
    status_online (get_status "200 info abcdef1234 1.10.1 ONLINE") = some "ONLINE" := by
  refine ⟨?_, ?_, ?_, ?_⟩ <;> rfl

/-- Claim C6 counterexample: the claim states that escalated operations
yield three mutually distinguishable outcomes, with a declined prompt
distinct from the fault outcomes.  In toggle_interface a missing helper
(exit 127), a declined prompt (pkexec exit 126) and a failed command
(exit 1) all produce the identical caller-visible outcome. -/
theorem C6_outcomes_counterexample :
    toggle_interface c6_table (fun _ => 127) "zt0" =
      toggle_interface c6_table (fun _ => 126) "zt0" ∧
    toggle_interface c6_table (fun _ => 126) "zt0" =
      toggle_interface c6_table (fun _ => 1) "zt0" ∧
    toggle_interface c6_table (fun _ => 1) "zt0" = some (false, false) := by
  refine ⟨by decide, by decide, by decide⟩

/-- Claim C6 as amended: toggle_interface collapses every nonzero exit of
the escalated command into the same failure outcome, so a declined prompt
is indistinguishable there from a failed command or a missing helper; only
the setup_auth_token copy step distinguishes exit 127 (immediate process
exit with no dialog) from every other failure (error dialog, then process
exit), and a user cancellation is reported as one of these failures, not as
a separate normal outcome. -/
theorem C6_outcomes_amended (table : List IfaceInfo) (iface : String)
    (rc rc2 rcS : Nat) (out : String)
    (h : rc ≠ 0) (h2 : rc2 ≠ 0) (hS : rcS ≠ 127) :
    toggle_interface table (fun _ => rc) iface =
      toggle_interface table (fun _ => rc2) iface ∧
    setup_copy none = SetupCopyOutcome.copied ∧
    setup_copy (some (127, out)) = SetupCopyOutcome.exitMissingHelper ∧
    setup_copy (some (rcS, out)) = SetupCopyOutcome.exitAfterDialog out := by
  refine ⟨?_, rfl, rfl, ?_⟩
  · unfold toggle_interface
    cases hst : get_interface_state table iface with
    | none => rfl
    | some st =>
      by_cases hd : pyLower st = "down" <;>
        simp [hd, decide_eq_false h, decide_eq_false h2]
  · simp [setup_copy, hS]

/-- Witness for the amended C6 at concrete exit codes 126, 1 and 1. -/
theorem C6_outcomes_amended_witness :
    ((126 : Nat) ≠ 0 ∧ (1 : Nat) ≠ 0 ∧ (1 : Nat) ≠ 127) ∧
    (toggle_interface c6_table (fun _ => 126) "zt0" =
       toggle_interface c6_table (fun _ => 1) "zt0" ∧
     setup_copy none = SetupCopyOutcome.copied ∧
     setup_copy (some (127, "denied")) = SetupCopyOutcome.exitMissingHelper ∧
     setup_copy (some (1, "denied")) = SetupCopyOutcome.exitAfterDialog "denied") :=
  ⟨⟨by decide, by decide, by decide⟩,
   C6_outcomes_amended c6_table "zt0" 126 1 1 "denied"
     (by decide) (by decide) (by decide)⟩

/-- Claim C7: the token is resolved at most once per process: after a first
successful resolution the global cache holds exactly the returned token,
and every later call — whatever the filesystem then looks like — returns
the identical token, touches no filesystem path, and leaves the cache
unchanged. -/
theorem C7_token_immutable (env env2 : FsEnv) (t : String)
    (h : (get_token env none).result = TokenResult.ok t) :
    (get_token env none).cache = some t ∧
    get_token env2 ((get_token env none).cache) =
      { result := TokenResult.ok t, cache := some t, probed := [] } := by
  have hc := get_token_cache_of_ok env t h
  refine ⟨hc, ?_⟩
  rw [hc]
  rfl

/-- Witness for C7: a root environment resolving from the system file. -/
theorem C7_token_immutable_witness :
    (get_token c7_env none).result = TokenResult.ok "roottok" ∧
    ((get_token c7_env none).cache = some "roottok" ∧
     get_token c7_env ((get_token c7_env none).cache) =
       { result := TokenResult.ok "roottok", cache := some "roottok", probed := [] }) :=
  ⟨by decide, C7_token_immutable c7_env c7_env "roottok" (by decide)⟩

/-- Claim C8: leave_network invokes the external leave command exactly when
the confirmation step approves; a declined confirmation runs nothing and
does not report success, and an approved confirmation reports success
exactly when the leave command succeeds. -/
theorem C8_leave_spec (confirm ok : Bool) :
    ((leave_network confirm ok).2 = true ↔ confirm = true) ∧
    leave_network false ok = (false, false) ∧
    (leave_network true ok).1 = ok := by
  cases confirm <;> cases ok <;> simp [leave_network]

/-- Claim C9: toggle_interface is a pure flip: when the state read
succeeds, it requests bringing the interface up exactly when the
lower-cased state equals "down", and down otherwise; the requested
direction depends only on the state read, never on an explicit target. -/
theorem C9_toggle_flip (table : List IfaceInfo) (run : Bool → Nat)
    (iface st : String)
    (h : get_interface_state table iface = some st) :
    (toggle_interface table run iface).map Prod.fst =
      some (decide (pyLower st = "down")) := by
  unfold toggle_interface
  rw [h]
  by_cases hd : pyLower st = "down" <;> simp [hd]

/-- Witness for C9 on a table whose interface is DOWN, so up is requested. -/
theorem C9_toggle_flip_witness :
    get_interface_state c9_table "zt0" = some "DOWN" ∧
    (toggle_interface c9_table (fun _ => 0) "zt0").map Prod.fst =
      some (decide (pyLower "DOWN" = "down")) :=
  ⟨rfl, C9_toggle_flip c9_table (fun _ => 0) "zt0" "DOWN" rfl⟩

/-- Claim C10: the status parser performs no bounds check and its consumers
index positions 2, 3 and 4 directly; all three accesses are in bounds
exactly when the status output splits into at least five
whitespace-separated tokens, and for shorter outputs they are not. -/
theorem C10_status_bounds (out : String) :
    (5 ≤ (get_status out).length ↔
      ((status_node_id (get_status out)).isSome ∧
       (status_version (get_status out)).isSome ∧
       (status_online (get_status out)).isSome)) := by
  simp only [status_node_id, status_version, status_online, get?_isSome_iff]
  omega

/-- Witness for C10 at a concrete status output with five tokens. -/
theorem C10_status_bounds_witness :
    5 ≤ (get_status "200 info abcdef1234 1.10.1 ONLINE").length ↔
      ((status_node_id (get_status "200 info abcdef1234 1.10.1 ONLINE")).isSome ∧
       (status_version (get_status "200 info abcdef1234 1.10.1 ONLINE")).isSome ∧
       (status_online (get_status "200 info abcdef1234 1.10.1 ONLINE")).isSome) :=
  C10_status_bounds "200 info abcdef1234 1.10.1 ONLINE"

end ZerotierQt
